import Mathlib

/-!
Verification development for the Discovery repository.

The development shallowly embeds the parts of the repository that the
claims concern:

* `QueryBuilder` from `src/mcp/denodo_mcp.py` — the role-driven query
  compiler (`build_accounts_query`, `build_summary_query`,
  `build_account_detail_query`) and the data worker's `call_tool`
  dispatcher.
* the process bridge `call_mcp_tool` and the four tool facades from
  `src/backend/agent/src/agent/graph.py`, with Python exceptions made
  explicit in an `Except` monad and the worker's observable behaviour
  (its two output lines, whether a communication step raises, …)
  passed in as a `WorkerBehavior` record.
* the mock data worker from `src/mcp/denodo_mcp_mock.py`, with the
  module-level `MOCK_ACCOUNTS` table passed as explicit state.

Python string operations used by the source (`str.join`, `str.strip`,
`str.split('\n')`, `str.startswith`) are embedded as executable
functions over `String.data` so that concrete runs reduce inside the
kernel.  JSON numbers are modelled as rationals, and `json.loads` /
`json.dumps` of the double-encoded tool payloads are treated as an
abstract codec: parsing oracles are explicit function parameters, and
the facades return the decoded envelope value rather than its textual
rendering.
-/

/-! ### Python string primitives -/

/-- Python's `sep.join(parts)`: parts interleaved with the separator,
empty string for an empty list. -/
def pyJoin (sep : String) : List String → String
  | [] => ""
  | p :: ps =>
    match ps with
    | [] => p
    | _ :: _ => p ++ sep ++ pyJoin sep ps

/-- Python's `str.strip()` (whitespace from both ends). -/
def pyStrip (s : String) : String :=
  ⟨((s.data.dropWhile Char.isWhitespace).reverse.dropWhile Char.isWhitespace).reverse⟩

/-- Split a character list at every occurrence of `c` (Python's
`str.split(c)` keeps empty pieces). -/
def splitCharList (c : Char) : List Char → List (List Char)
  | [] => [[]]
  | a :: as =>
    let rest := splitCharList c as
    if a = c then [] :: rest
    else
      match rest with
      | [] => [[a]]
      | r :: rs => (a :: r) :: rs

/-- Python's `str.split('\n')`. -/
def pySplitNl (s : String) : List String :=
  (splitCharList '\n' s.data).map String.mk

/-- Python's `line.startswith('{')`. -/
def pyStartsBrace (s : String) : Bool :=
  match s.data with
  | c :: _ => c = '\x7b'
  | [] => false

/-- Python's `s[:n]`. -/
def pyTake (s : String) (n : Nat) : String := ⟨s.data.take n⟩

/-- `p` occurs as a contiguous substring of `q`. -/
def SubStr (p q : String) : Prop := p.data <:+: q.data

instance (p q : String) : Decidable (SubStr p q) :=
  inferInstanceAs (Decidable (p.data <:+: q.data))

theorem data_append_str (s t : String) : (s ++ t).data = s.data ++ t.data := by
  cases s; cases t; rfl

theorem str_ext {s t : String} (h : s.data = t.data) : s = t :=
  congrArg String.mk h

theorem substr_refl (s : String) : SubStr s s := ⟨[], [], by simp⟩

theorem substr_trans {a b c : String} (h1 : SubStr a b) (h2 : SubStr b c) :
    SubStr a c := by
  obtain ⟨l1, r1, h1⟩ := h1
  obtain ⟨l2, r2, h2⟩ := h2
  exact ⟨l2 ++ l1, r1 ++ r2, by rw [← h2, ← h1]; simp⟩

theorem substr_app_left {a b : String} (c : String) (h : SubStr a b) :
    SubStr a (c ++ b) := by
  obtain ⟨l, r, h⟩ := h
  exact ⟨c.data ++ l, r, by rw [data_append_str, ← h]; simp⟩

theorem substr_app_right {a b : String} (c : String) (h : SubStr a b) :
    SubStr a (b ++ c) := by
  obtain ⟨l, r, h⟩ := h
  exact ⟨l, r ++ c.data, by rw [data_append_str, ← h]; simp⟩

/-- A piece of a Python `sep.join` is a substring of the result. -/
theorem substr_of_mem_pyJoin {a : String} {l : List String} (sep : String)
    (h : a ∈ l) : SubStr a (pyJoin sep l) := by
  induction l with
  | nil => cases h
  | cons x xs ih =>
    rcases List.mem_cons.mp h with rfl | hmem
    · cases xs with
      | nil => exact substr_refl a
      | cons y ys =>
        show SubStr a (a ++ sep ++ pyJoin sep (y :: ys))
        exact substr_app_right _ (substr_app_right _ (substr_refl a))
    · cases xs with
      | nil => cases hmem
      | cons y ys =>
        show SubStr a (x ++ sep ++ pyJoin sep (y :: ys))
        exact substr_app_left _ (ih hmem)

/-- Strings that differ in their first character are different, even after
appending arbitrary tails. -/
theorem ne_append_of_head {p q : String} {c d : Char} {t u : List Char}
    (hp : p.data = c :: t) (hq : q.data = d :: u) (hcd : c ≠ d)
    (x y : String) : p ++ x ≠ q ++ y := by
  intro h
  have h2 := congrArg String.data h
  rw [data_append_str, data_append_str, hp, hq] at h2
  simp only [List.cons_append, List.cons.injEq] at h2
  exact hcd h2.1

/-- Strings that agree in their first character but differ in the second are
different, even after appending arbitrary tails. -/
theorem ne_append_of_second {p q : String} {c c1 d d1 : Char} {t u : List Char}
    (hp : p.data = c :: c1 :: t) (hq : q.data = d :: d1 :: u)
    (h1 : c1 ≠ d1) (x y : String) : p ++ x ≠ q ++ y := by
  intro h
  have h2 := congrArg String.data h
  rw [data_append_str, data_append_str, hp, hq] at h2
  simp only [List.cons_append, List.cons.injEq] at h2
  exact h1 h2.2.1

theorem append_empty_str (s : String) : s ++ "" = s := by
  apply str_ext; rw [data_append_str]; simp [String.data]

/-- Wrapping a string between a fixed head and tail is injective. -/
theorem wrap_inj (pre suf : String) {a b : String}
    (h : pre ++ a ++ suf = pre ++ b ++ suf) : a = b := by
  have h2 := congrArg String.data h
  rw [data_append_str, data_append_str, data_append_str, data_append_str] at h2
  rw [List.append_assoc, List.append_assoc] at h2
  have h3 := List.append_cancel_left h2
  exact str_ext (List.append_cancel_right h3)

/-! ### The role-driven query compiler (`QueryBuilder`, src/mcp/denodo_mcp.py) -/

namespace QueryBuilder

/-- The recognized keys of the optional `filters` mapping.  A `none` field
is an absent key; `some` is a present key with its value.  JSON numbers
are rationals. -/
structure FilterSpec where
  account_number : Option String := none
  account_status : Option String := none
  min_balance : Option Rat := none
  account_type : Option String := none
  limit : Option Int := none

/-- Python truthiness of `filters.get(key)` for a string-valued key. -/
def truthyS : Option String → Bool
  | none => false
  | some s => s ≠ ""

/-- Python truthiness of `filters.get("min_balance")` (0 is falsy). -/
def truthyQ : Option Rat → Bool
  | none => false
  | some q => q ≠ 0

/-- Python truthiness of `filters.get("limit")` (0 is falsy). -/
def truthyI : Option Int → Bool
  | none => false
  | some n => n ≠ 0

/-- Python truthiness of the `filters` dict itself (`if filters:`): true
iff some recognized key is present. -/
def FilterSpec.truthy (f : FilterSpec) : Bool :=
  f.account_number.isSome || f.account_status.isSome || f.min_balance.isSome ||
    f.account_type.isSome || f.limit.isSome

/-- The `select_fields` list of `build_accounts_query`: the core field set
plus the detail group and the balance group, each gated by its flag. -/
def select_fields (include_balance include_details : Bool) : List String :=
  ["r1.account_number", "r1.entitlement_roles", "r1.account_status"]
    ++ (if include_details then
          ["r2.client_name", "r2.account_type", "r2.open_date", "r2.branch_code"]
        else [])
    ++ (if include_balance then
          ["r3.balance", "r3.currency", "r3.last_updated"]
        else [])

/-- One disjunct of the role-match clause of `build_accounts_query`
(also used by `build_account_detail_query`). -/
def role_like (role : String) : String :=
  "r1.entitlement_roles LIKE '%" ++ role ++ "%'"

/-- One disjunct of the role-match clause of `build_summary_query`
(no table alias in the source). -/
def role_like_summary (role : String) : String :=
  "entitlement_roles LIKE '%" ++ role ++ "%'"

/-- `" OR ".join(...)` over the per-role LIKE conditions. -/
def role_conditions (roles : List String) : String :=
  pyJoin " OR " (roles.map role_like)

/-- The parenthesised role-match clause appended to `where_conditions`. -/
def role_clause (roles : List String) : String :=
  "(" ++ (role_conditions roles ++ ")")

def cond_account_number (v : String) : String := "r1.account_number = '" ++ (v ++ "'")

def cond_account_status (v : String) : String := "r1.account_status = '" ++ (v ++ "'")

def cond_min_balance (v : Rat) : String := "r3.balance >= " ++ toString v

def cond_account_type (v : String) : String := "r2.account_type = '" ++ (v ++ "'")

/-- The `where_conditions` list built by `build_accounts_query`: the role
clause when `roles` is truthy, then the filter predicates guarded by
`if filters:` and each key's truthiness, with the balance predicate
additionally gated by `include_balance` and the type predicate by
`include_details`. -/
def where_conditions (roles : List String) (filters : FilterSpec)
    (include_balance include_details : Bool) : List String :=
  (if roles ≠ [] then [role_clause roles] else [])
    ++ (if filters.truthy then
          (if truthyS filters.account_number then
            [cond_account_number (filters.account_number.getD "")] else [])
          ++ (if truthyS filters.account_status then
                [cond_account_status (filters.account_status.getD "")] else [])
          ++ (if truthyQ filters.min_balance then
                (if include_balance then
                  [cond_min_balance (filters.min_balance.getD 0)] else [])
              else [])
          ++ (if truthyS filters.account_type then
                (if include_details then
                  [cond_account_type (filters.account_type.getD "")] else [])
              else [])
        else [])

def join_details : String :=
  "INNER JOIN RPBT0100 r2 ON r1.account_number = r2.account_number"

def join_balance : String :=
  "INNER JOIN RPBT0200 r3 ON r1.account_number = r3.account_number"

/-- The `query_parts` list of `build_accounts_query`. -/
def query_parts (roles : List String) (filters : FilterSpec)
    (include_balance include_details : Bool) : List String :=
  ["SELECT " ++ pyJoin ", " (select_fields include_balance include_details)]
    ++ ["FROM RCAT0300 r1"]
    ++ (if include_details then [join_details] else [])
    ++ (if include_balance then [join_balance] else [])
    ++ (if where_conditions roles filters include_balance include_details ≠ [] then
          ["WHERE " ++ pyJoin " AND "
            (where_conditions roles filters include_balance include_details)]
        else [])
    ++ ["ORDER BY r1.account_number"]
    ++ (if filters.truthy && truthyI filters.limit then
          ["LIMIT " ++ toString (filters.limit.getD 0)]
        else [])

/-- `QueryBuilder.build_accounts_query`: `" ".join(query_parts)`. -/
def build_accounts_query (roles : List String) (filters : FilterSpec)
    (include_balance include_details : Bool) : String :=
  pyJoin " " (query_parts roles filters include_balance include_details)

/-- The parenthesised role-match clause of `build_summary_query`. -/
def role_clause_summary (roles : List String) : String :=
  "(" ++ (pyJoin " OR " (roles.map role_like_summary) ++ ")")

def summary_head : String :=
  "\n        SELECT \n            COUNT(DISTINCT r1.account_number) as total_accounts,\n            SUM(r3.balance) as total_balance,\n            COUNT(DISTINCT r2.client_name) as total_clients,\n            r1.entitlement_roles\n        FROM RCAT0300 r1\n        INNER JOIN RPBT0100 r2 ON r1.account_number = r2.account_number\n        INNER JOIN RPBT0200 r3 ON r1.account_number = r3.account_number\n        WHERE "

def summary_tail : String :=
  "\n        GROUP BY r1.entitlement_roles\n        "

/-- `QueryBuilder.build_summary_query`: the f-string with the role-match
disjunction interpolated into `WHERE (...)`. -/
def build_summary_query (roles : List String) : String :=
  summary_head ++ role_clause_summary roles ++ summary_tail

def detail_head : String :=
  "\n        SELECT \n            r1.account_number,\n            r1.entitlement_roles,\n            r1.account_status,\n            r2.client_name,\n            r2.account_type,\n            r2.open_date,\n            r2.branch_code,\n            r3.balance,\n            r3.currency,\n            r3.last_updated\n        FROM RCAT0300 r1\n        INNER JOIN RPBT0100 r2 ON r1.account_number = r2.account_number\n        INNER JOIN RPBT0200 r3 ON r1.account_number = r3.account_number\n        WHERE r1.account_number = '"

def detail_mid : String :=
  "'\n        AND "

def detail_tail : String :=
  "\n        "

/-- `QueryBuilder.build_account_detail_query`: the f-string with the account
number and the role-match disjunction (the same `(...)` clause as
`build_accounts_query`) interpolated. -/
def build_account_detail_query (account_number : String) (roles : List String) :
    String :=
  detail_head ++ account_number ++ detail_mid ++ role_clause roles ++ detail_tail

end QueryBuilder

/-! ### Membership helpers for the query-part lists -/

theorem mem_ite_singleton {α : Type} {x a : α} {c : Prop} [Decidable c]
    (h : x ∈ (if c then [a] else [])) : x = a ∧ c := by
  split at h
  · exact ⟨by simpa using h, by assumption⟩
  · simp at h

theorem not_mem_ite_singleton {α : Type} {x a : α} {c : Prop} [Decidable c]
    (h : x ≠ a) : x ∉ (if c then [a] else []) := by
  intro hmem
  exact h (mem_ite_singleton hmem).1

theorem mem_ite_singleton_self {α : Type} {a : α} {c : Prop} [Decidable c]
    (hc : c) : a ∈ (if c then [a] else []) := by
  simp [hc]

open QueryBuilder

/-- A string with head character `c`, extended arbitrarily, differs from a
string with a different head character. -/
theorem ne_lit_of_head (p q : String) (c d : Char) (t u : List Char)
    (hp : p.data = c :: t) (hq : q.data = d :: u) (hcd : c ≠ d) (x : String) :
    p ++ x ≠ q := by
  intro h
  have h2 := congrArg String.data h
  rw [data_append_str, hp, hq] at h2
  simp only [List.cons_append, List.cons.injEq] at h2
  exact hcd h2.1

theorem join_details_ne_select (x : String) :
    "SELECT " ++ x ≠ join_details :=
  ne_lit_of_head "SELECT " join_details 'S' 'I' "ELECT ".data
    "NNER JOIN RPBT0100 r2 ON r1.account_number = r2.account_number".data
    rfl rfl (by decide) x

theorem join_details_ne_where (x : String) :
    "WHERE " ++ x ≠ join_details :=
  ne_lit_of_head "WHERE " join_details 'W' 'I' "HERE ".data
    "NNER JOIN RPBT0100 r2 ON r1.account_number = r2.account_number".data
    rfl rfl (by decide) x

theorem join_details_ne_limit (x : String) :
    "LIMIT " ++ x ≠ join_details :=
  ne_lit_of_head "LIMIT " join_details 'L' 'I' "IMIT ".data
    "NNER JOIN RPBT0100 r2 ON r1.account_number = r2.account_number".data
    rfl rfl (by decide) x

theorem join_balance_ne_select (x : String) :
    "SELECT " ++ x ≠ join_balance :=
  ne_lit_of_head "SELECT " join_balance 'S' 'I' "ELECT ".data
    "NNER JOIN RPBT0200 r3 ON r1.account_number = r3.account_number".data
    rfl rfl (by decide) x

theorem join_balance_ne_where (x : String) :
    "WHERE " ++ x ≠ join_balance :=
  ne_lit_of_head "WHERE " join_balance 'W' 'I' "HERE ".data
    "NNER JOIN RPBT0200 r3 ON r1.account_number = r3.account_number".data
    rfl rfl (by decide) x

theorem join_balance_ne_limit (x : String) :
    "LIMIT " ++ x ≠ join_balance :=
  ne_lit_of_head "LIMIT " join_balance 'L' 'I' "IMIT ".data
    "NNER JOIN RPBT0200 r3 ON r1.account_number = r3.account_number".data
    rfl rfl (by decide) x

/-- The details join is a member of `query_parts` exactly when
`include_details` is true. -/
theorem join_details_mem_iff (roles : List String) (filters : FilterSpec)
    (ib idt : Bool) :
    join_details ∈ query_parts roles filters ib idt ↔ idt = true := by
  constructor
  · intro h
    simp only [query_parts, List.append_assoc, List.mem_append, List.mem_singleton] at h
    rcases h with h | h | h | h | h | h | h
    · exact absurd h.symm (join_details_ne_select _)
    · exact absurd h (by decide)
    · exact (mem_ite_singleton h).2
    · have := (mem_ite_singleton h).1
      exact absurd this (by decide)
    · have := (mem_ite_singleton h).1
      exact absurd this.symm (join_details_ne_where _)
    · exact absurd h (by decide)
    · have := (mem_ite_singleton h).1
      exact absurd this.symm (join_details_ne_limit _)
  · intro h
    subst h
    simp [query_parts]

/-- The balance join is a member of `query_parts` exactly when
`include_balance` is true. -/
theorem join_balance_mem_iff (roles : List String) (filters : FilterSpec)
    (ib idt : Bool) :
    join_balance ∈ query_parts roles filters ib idt ↔ ib = true := by
  constructor
  · intro h
    simp only [query_parts, List.append_assoc, List.mem_append, List.mem_singleton] at h
    rcases h with h | h | h | h | h | h | h
    · exact absurd h.symm (join_balance_ne_select _)
    · exact absurd h (by decide)
    · have := (mem_ite_singleton h).1
      exact absurd this (by decide)
    · exact (mem_ite_singleton h).2
    · have := (mem_ite_singleton h).1
      exact absurd this.symm (join_balance_ne_where _)
    · exact absurd h (by decide)
    · have := (mem_ite_singleton h).1
      exact absurd this.symm (join_balance_ne_limit _)
  · intro h
    subst h
    simp [query_parts]

/-- C2: for every non-empty roles list and every combination of the
include flags, the ListByRoles query parts contain the `INNER JOIN
RPBT0100` details join iff `include_details` is true and the `INNER JOIN
RPBT0200` balance join iff `include_balance` is true; the details field
group (client name, account type, open date, branch code) is selected iff
`include_details`, and the balance field group (balance, currency,
last-updated) iff `include_balance`; when a flag is set the join clause
occurs verbatim in the compiled query text. -/
theorem C2_join_and_field_group_iff_flag (roles : List String)
    (filters : FilterSpec) (ib idt : Bool) (hroles : roles ≠ []) :
    (join_details ∈ query_parts roles filters ib idt ↔ idt = true)
    ∧ (join_balance ∈ query_parts roles filters ib idt ↔ ib = true)
    ∧ (∀ f ∈ (["r2.client_name", "r2.account_type", "r2.open_date",
        "r2.branch_code"] : List String),
        (f ∈ select_fields ib idt ↔ idt = true))
    ∧ (∀ f ∈ (["r3.balance", "r3.currency", "r3.last_updated"] : List String),
        (f ∈ select_fields ib idt ↔ ib = true))
    ∧ (idt = true →
        SubStr join_details (build_accounts_query roles filters ib idt))
    ∧ (ib = true →
        SubStr join_balance (build_accounts_query roles filters ib idt)) := by
  refine ⟨join_details_mem_iff roles filters ib idt,
    join_balance_mem_iff roles filters ib idt, ?_, ?_, ?_, ?_⟩
  · intro f hf
    simp only [List.mem_cons, List.not_mem_nil, or_false] at hf
    rcases hf with rfl | rfl | rfl | rfl <;> cases ib <;> cases idt <;> decide
  · intro f hf
    simp only [List.mem_cons, List.not_mem_nil, or_false] at hf
    rcases hf with rfl | rfl | rfl <;> cases ib <;> cases idt <;> decide
  · intro h
    exact substr_of_mem_pyJoin " "
      ((join_details_mem_iff roles filters ib idt).mpr h)
  · intro h
    exact substr_of_mem_pyJoin " "
      ((join_balance_mem_iff roles filters ib idt).mpr h)

theorem C2_join_and_field_group_iff_flag_witness :
    SubStr join_details (build_accounts_query ["Admin"] {} true true)
    ∧ SubStr join_balance (build_accounts_query ["Admin"] {} true true)
    ∧ join_details ∉ query_parts ["Admin"] {} false false
    ∧ join_balance ∉ query_parts ["Admin"] {} false false := by
  have h := C2_join_and_field_group_iff_flag ["Admin"] {} true true (by decide)
  have h2 := C2_join_and_field_group_iff_flag ["Admin"] {} false false (by decide)
  refine ⟨h.2.2.2.2.1 rfl, h.2.2.2.2.2 rfl, ?_, ?_⟩
  · intro hmem
    simpa using h2.1.mp hmem
  · intro hmem
    simpa using h2.2.1.mp hmem

/-- C3: for every roles list with k ≥ 1 distinct values, the role-match
clause of each compiled query is the parenthesised OR-disjunction of
exactly k distinct per-role contains predicates
(`... LIKE '%role%'`), and that clause occurs verbatim in the
ListByRoles, Summary and Detail query texts. -/
theorem C3_role_match_k_disjuncts (roles : List String) (filters : FilterSpec)
    (ib idt : Bool) (acc : String) (k : Nat) (hk : roles.length = k)
    (hne : roles ≠ []) (hnd : roles.Nodup) :
    (roles.map role_like).length = k
    ∧ (roles.map role_like).Nodup
    ∧ (roles.map role_like_summary).Nodup
    ∧ role_clause roles = "(" ++ (pyJoin " OR " (roles.map role_like) ++ ")")
    ∧ SubStr (role_clause roles) (build_accounts_query roles filters ib idt)
    ∧ SubStr (role_clause_summary roles) (build_summary_query roles)
    ∧ SubStr (role_clause roles) (build_account_detail_query acc roles) := by
  refine ⟨by simpa using hk, ?_, ?_, rfl, ?_, ?_, ?_⟩
  · exact hnd.map (fun a b h =>
      wrap_inj "r1.entitlement_roles LIKE '%" "%'" h)
  · exact hnd.map (fun a b h =>
      wrap_inj "entitlement_roles LIKE '%" "%'" h)
  · have hmem : role_clause roles ∈ where_conditions roles filters ib idt := by
      simp [where_conditions, hne]
    have hw : where_conditions roles filters ib idt ≠ [] :=
      List.ne_nil_of_mem hmem
    have h1 : SubStr (role_clause roles)
        ("WHERE " ++ pyJoin " AND " (where_conditions roles filters ib idt)) :=
      substr_app_left _ (substr_of_mem_pyJoin " AND " hmem)
    have h2 : ("WHERE " ++ pyJoin " AND " (where_conditions roles filters ib idt))
        ∈ query_parts roles filters ib idt := by
      simp [query_parts, hw]
    exact substr_trans h1 (substr_of_mem_pyJoin " " h2)
  · exact ⟨summary_head.data, summary_tail.data,
      by simp [build_summary_query, data_append_str]⟩
  · exact ⟨(detail_head ++ acc ++ detail_mid).data, detail_tail.data,
      by simp [build_account_detail_query, data_append_str]⟩

theorem C3_role_match_k_disjuncts_witness :
    (["Admin", "Manager"].map role_like).length = 2
    ∧ SubStr (role_clause ["Admin", "Manager"])
        (build_accounts_query ["Admin", "Manager"] {} true true)
    ∧ SubStr (role_clause_summary ["Admin", "Manager"])
        (build_summary_query ["Admin", "Manager"])
    ∧ SubStr (role_clause ["Admin", "Manager"])
        (build_account_detail_query "ACC-10001" ["Admin", "Manager"]) := by
  have h := C3_role_match_k_disjuncts ["Admin", "Manager"] {} true true
    "ACC-10001" 2 (by decide) (by decide) (by decide)
  exact ⟨h.1, h.2.2.2.2.1, h.2.2.2.2.2.1, h.2.2.2.2.2.2⟩

theorem min_balance_ne_role_clause (v : Rat) (roles : List String) :
    cond_min_balance v ≠ role_clause roles :=
  @ne_append_of_head "r3.balance >= " "(" 'r' '(' "3.balance >= ".data []
    rfl rfl (by decide) (toString v) (role_conditions roles ++ ")")

theorem min_balance_ne_account_number (v : Rat) (w : String) :
    cond_min_balance v ≠ cond_account_number w :=
  @ne_append_of_second "r3.balance >= " "r1.account_number = '" 'r' '3' 'r' '1'
    ".balance >= ".data ".account_number = '".data rfl rfl (by decide)
    (toString v) (w ++ "'")

theorem min_balance_ne_account_status (v : Rat) (w : String) :
    cond_min_balance v ≠ cond_account_status w :=
  @ne_append_of_second "r3.balance >= " "r1.account_status = '" 'r' '3' 'r' '1'
    ".balance >= ".data ".account_status = '".data rfl rfl (by decide)
    (toString v) (w ++ "'")

theorem min_balance_ne_account_type (v : Rat) (w : String) :
    cond_min_balance v ≠ cond_account_type w :=
  @ne_append_of_second "r3.balance >= " "r2.account_type = '" 'r' '3' 'r' '2'
    ".balance >= ".data ".account_type = '".data rfl rfl (by decide)
    (toString v) (w ++ "'")

/-- The inclusive lower-bound balance predicate is one of the compiled
`where_conditions` exactly when `min_balance` is present and truthy and
`include_balance` is true. -/
theorem mem_min_balance_iff (roles : List String) (filters : FilterSpec)
    (ib idt : Bool) (v : Rat) (hv : filters.min_balance = some v) :
    (cond_min_balance v ∈ where_conditions roles filters ib idt
      ↔ (ib = true ∧ v ≠ 0)) := by
  have htr : filters.truthy = true := by
    simp [FilterSpec.truthy, hv]
  constructor
  · intro h
    simp only [where_conditions, hv, Option.getD_some] at h
    rw [htr] at h
    simp only [eq_self_iff_true, if_true, List.mem_append] at h
    rcases h with h | (((h | h) | h) | h)
    · exact absurd (mem_ite_singleton h).1 (min_balance_ne_role_clause v roles)
    · exact absurd (mem_ite_singleton h).1
        (min_balance_ne_account_number v _)
    · exact absurd (mem_ite_singleton h).1
        (min_balance_ne_account_status v _)
    · by_cases hq : truthyQ (some v) = true
      · rw [if_pos hq] at h
        have hib := (mem_ite_singleton h).2
        exact ⟨by simpa using hib, by simpa [truthyQ] using hq⟩
      · rw [if_neg hq] at h
        simp at h
    · by_cases ht : truthyS filters.account_type = true
      · rw [if_pos ht] at h
        by_cases hd : idt = true
        · rw [if_pos hd] at h
          exact absurd (by simpa using h) (min_balance_ne_account_type v _)
        · rw [if_neg hd] at h
          simp at h
      · rw [if_neg ht] at h
        simp at h
  · rintro ⟨hib, hv0⟩
    simp [where_conditions, htr, hv, truthyQ, hv0, hib]

/-- C8: for every FilterSpec containing a (truthy) `min_balance` value,
the compiled ListByRoles query contains the inclusive lower-bound
predicate `r3.balance >= min_balance` only when `include_balance` is
true; with `include_balance` false the predicate is silently absent from
`where_conditions` (the query is still compiled, no error is raised). -/
theorem C8_min_balance_only_when_balance (roles : List String)
    (filters : FilterSpec) (ib idt : Bool) (v : Rat)
    (hv : filters.min_balance = some v) :
    (cond_min_balance v ∈ where_conditions roles filters ib idt
      ↔ (ib = true ∧ v ≠ 0))
    ∧ (ib = false → cond_min_balance v ∉ where_conditions roles filters ib idt)
    ∧ (ib = true → v ≠ 0 →
        SubStr (cond_min_balance v)
          (build_accounts_query roles filters ib idt)) := by
  have hiff := mem_min_balance_iff roles filters ib idt v hv
  refine ⟨hiff, ?_, ?_⟩
  · intro hf hmem
    have hib := (hiff.mp hmem).1
    rw [hf] at hib
    exact Bool.false_ne_true hib
  · intro hib hv0
    have hmem := hiff.mpr ⟨hib, hv0⟩
    have hw : where_conditions roles filters ib idt ≠ [] :=
      List.ne_nil_of_mem hmem
    have h1 : SubStr (cond_min_balance v)
        ("WHERE " ++ pyJoin " AND " (where_conditions roles filters ib idt)) :=
      substr_app_left _ (substr_of_mem_pyJoin " AND " hmem)
    have h2 : ("WHERE " ++ pyJoin " AND " (where_conditions roles filters ib idt))
        ∈ query_parts roles filters ib idt := by
      simp [query_parts, hw]
    exact substr_trans h1 (substr_of_mem_pyJoin " " h2)

theorem C8_min_balance_only_when_balance_witness :
    SubStr (cond_min_balance 10000)
      (build_accounts_query ["Admin"] { min_balance := some 10000 } true true)
    ∧ cond_min_balance 10000 ∉
        where_conditions ["Admin"] { min_balance := some 10000 } false true := by
  have h := C8_min_balance_only_when_balance ["Admin"]
    { min_balance := some 10000 } true true 10000 rfl
  have h2 := C8_min_balance_only_when_balance ["Admin"]
    { min_balance := some 10000 } false true 10000 rfl
  exact ⟨h.2.2 rfl (by norm_num), h2.2.1 rfl⟩

/-! ### JSON values

Decoded JSON payloads (the double-encoded tool results).  Numbers are
rationals. -/

inductive JValue where
  | null
  | bool (b : Bool)
  | num (q : Rat)
  | str (s : String)
  | arr (elems : List JValue)
  | obj (fields : List (String × JValue))

/-- The `{"error": msg}` object every failure path of the workers and of
the bridge produces. -/
def errEnv (msg : String) : JValue := .obj [("error", .str msg)]

/-- Lookup of a key in a JSON object's field list (`dict.get`, first
occurrence). -/
def jLookup (fields : List (String × JValue)) (k : String) : Option JValue :=
  (fields.find? (fun p => p.1 = k)).map (fun p => p.2)

/-! ### The data worker's `call_tool` dispatcher (src/mcp/denodo_mcp.py)

`execute_denodo_query` performs an HTTP POST; it is modelled by an
oracle `db` mapping the query text to `some elements` (the rows of the
REST response) or `none` (the call raised), with `dbErr` standing for
`str(e)` of the raised exception.  The returned payload is the decoded
JSON text of the single `TextContent` the handler produces, and the
list of executed queries is recorded.  The `execute_custom_query`
branch is not modelled: no claim concerns it, and it falls to the
unknown-tool branch here only for that name. -/

namespace DenodoMcp

open QueryBuilder

/-- The arguments a denodo `call_tool` invocation reads via
`arguments.get(...)`, with the handler's defaults. -/
structure ToolArgs where
  roles : List String := []
  filters : FilterSpec := {}
  include_balance : Bool := true
  include_details : Bool := true
  account_number : String := ""

/-- JSON rendering of the filters dict for the `query_metadata` echo. -/
def filtersJ (f : FilterSpec) : JValue :=
  .obj ((match f.account_number with
      | some s => [("account_number", JValue.str s)]
      | none => [])
    ++ (match f.account_status with
      | some s => [("account_status", JValue.str s)]
      | none => [])
    ++ (match f.min_balance with
      | some q => [("min_balance", JValue.num q)]
      | none => [])
    ++ (match f.account_type with
      | some s => [("account_type", JValue.str s)]
      | none => [])
    ++ (match f.limit with
      | some n => [("limit", JValue.num n)]
      | none => []))

/-- One `call_tool` dispatch: the decoded response payload and the list
of queries handed to `execute_denodo_query`. -/
def call_tool (db : String → Option (List JValue)) (dbErr : String)
    (name : String) (args : ToolArgs) : JValue × List String :=
  if name = "query_accounts_by_roles" then
    if args.roles = [] then
      (errEnv "Roles are required", [])
    else
      let q := build_accounts_query args.roles args.filters
        args.include_balance args.include_details
      match db q with
      | none => (errEnv dbErr, [q])
      | some elems =>
        (.obj [("accounts", .arr elems),
          ("total_count", .num elems.length),
          ("query_metadata", .obj [("roles_used", .arr (args.roles.map .str)),
            ("filters_applied", filtersJ args.filters),
            ("query", .str (pyTake q 500))])], [q])
  else if name = "get_account_summary" then
    let q := build_summary_query args.roles
    match db q with
    | none => (errEnv dbErr, [q])
    | some elems =>
      (.obj [("summary", .arr elems),
        ("roles", .arr (args.roles.map .str))], [q])
  else if name = "get_account_detail" then
    let q := build_account_detail_query args.account_number args.roles
    match db q with
    | none => (errEnv dbErr, [q])
    | some elems =>
      match elems with
      | [] => (.obj [("error",
          .str "Account not found or access denied based on roles")], [q])
      | a :: _ => (.obj [("account", a), ("access_granted", .bool true)], [q])
  else
    (errEnv ("Unknown tool: " ++ name), [])

end DenodoMcp

set_option maxRecDepth 10000

/-- C1 counterexample: with an empty roles list, `get_account_summary`
does not fail with an error result before emitting query text — it
builds the summary query (whose mandatory role clause degenerates to the
empty disjunction `WHERE ()`), hands it to `execute_denodo_query`, and
returns a success-shaped payload. -/
theorem C1_counterexample :
    (DenodoMcp.call_tool (fun _ => some []) "boom" "get_account_summary"
      { roles := [] }).2 = [build_summary_query []]
    ∧ SubStr "WHERE ()" (build_summary_query [])
    ∧ (DenodoMcp.call_tool (fun _ => some []) "boom" "get_account_summary"
      { roles := [] }).1
      = JValue.obj [("summary", .arr []), ("roles", .arr [])]
    ∧ (DenodoMcp.call_tool (fun _ => some []) "boom" "get_account_detail"
      { roles := [], account_number := "ACC-999" }).2
      = [build_account_detail_query "ACC-999" []] := by
  refine ⟨rfl, by decide, rfl, rfl⟩

/-- C1 (amended): only `query_accounts_by_roles` rejects an empty roles
list with an error payload before building any query;
`get_account_summary` and `get_account_detail` compile their query even
for an empty RoleSet and hand it to the query executor. -/
theorem C1_amended_empty_roles (db : String → Option (List JValue))
    (dbErr : String) (filters : FilterSpec) (ib idt : Bool) (acc : String) :
    (DenodoMcp.call_tool db dbErr "query_accounts_by_roles"
        { roles := [], filters := filters, include_balance := ib,
          include_details := idt, account_number := acc }
      = (errEnv "Roles are required", []))
    ∧ ((DenodoMcp.call_tool db dbErr "get_account_summary"
        { roles := [], filters := filters, include_balance := ib,
          include_details := idt, account_number := acc }).2
      = [build_summary_query []])
    ∧ ((DenodoMcp.call_tool db dbErr "get_account_detail"
        { roles := [], filters := filters, include_balance := ib,
          include_details := idt, account_number := acc }).2
      = [build_account_detail_query acc []]) := by
  refine ⟨rfl, ?_, ?_⟩
  · unfold DenodoMcp.call_tool
    rw [if_neg (by decide), if_pos rfl]
    dsimp only
    cases db (build_summary_query []) <;> rfl
  · unfold DenodoMcp.call_tool
    rw [if_neg (by decide), if_neg (by decide), if_pos rfl]
    dsimp only
    cases db (build_account_detail_query acc []) with
    | none => rfl
    | some elems => cases elems <;> rfl

/-! ### ResponseDemux (src/backend/agent/src/agent/graph.py, lines 169–210)

The parse loop over `stdout.strip().split('\n')`: strip each line, skip
blank lines and lines not beginning with `{`, parse the rest with
`json.loads` (skipping individual parse failures), then scan for the
response whose `id` equals the wanted id.  `json.loads` is the oracle
`jl`; a JSON document that begins with `{` parses, if at all, to an
object, so the oracle returns an object's field list. -/

/-- A parsed JSON-RPC message: the field list of the JSON object. -/
abbrev RpcObj := List (String × JValue)

/-- Python's `resp.get('id') == wantId` for an integer `wantId`
(`True`/`False` compare equal to 1/0). -/
def idMatches (resp : RpcObj) (wantId : Int) : Bool :=
  match jLookup resp "id" with
  | some (.num q) => q = (wantId : Rat)
  | some (.bool b) => (if b then (1 : Int) else 0) = wantId
  | _ => false

/-- The response-collection loop: strip, skip blanks, skip lines not
beginning with `{`, keep successful parses. -/
def parseLines (jl : String → Option RpcObj) : List String → List RpcObj
  | [] => []
  | l :: ls =>
    let line := pyStrip l
    if line = "" then parseLines jl ls
    else if pyStartsBrace line = false then parseLines jl ls
    else
      match jl line with
      | some resp => resp :: parseLines jl ls
      | none => parseLines jl ls

inductive DemuxOutcome where
  | found (resp : RpcObj)
  | noValidResponses
  | noToolResponse

/-- Lines 193–210: empty parse list reports "No valid responses from MCP
server", a parse list without the wanted id reports "No tool response
from MCP server", otherwise the first matching response is returned. -/
def demux (jl : String → Option RpcObj) (lines : List String)
    (wantId : Int) : DemuxOutcome :=
  let responses := parseLines jl lines
  if responses.isEmpty then .noValidResponses
  else
    match responses.find? (fun r => idMatches r wantId) with
    | some r => .found r
    | none => .noToolResponse

/-- A line the parse loop discards: blank after stripping, not beginning
with an object delimiter, or rejected by `json.loads`. -/
def NoiseLine (jl : String → Option RpcObj) (l : String) : Prop :=
  pyStrip l = "" ∨ pyStartsBrace (pyStrip l) = false ∨ jl (pyStrip l) = none

theorem parseLines_eq_nil_of_noise (jl : String → Option RpcObj)
    (lines : List String) (h : ∀ l ∈ lines, NoiseLine jl l) :
    parseLines jl lines = [] := by
  induction lines with
  | nil => rfl
  | cons x xs ih =>
    have hx := h x (List.mem_cons_self x xs)
    have hxs := ih (fun l hl => h l (List.mem_cons_of_mem x hl))
    rcases hx with hx | hx | hx
    · simp [parseLines, hx, hxs]
    · by_cases hb : pyStrip x = ""
      · simp [parseLines, hb, hxs]
      · simp [parseLines, hb, hx, hxs]
    · by_cases hb : pyStrip x = ""
      · simp [parseLines, hb, hxs]
      · by_cases hs : pyStartsBrace (pyStrip x) = false
        · simp [parseLines, hb, hs, hxs]
        · simp only [Bool.not_eq_false] at hs
          simp [parseLines, hb, hs, hx, hxs]

/-- Every kept response originates in a line that begins with `{` and
parses. -/
theorem parseLines_sound (jl : String → Option RpcObj)
    (lines : List String) (r : RpcObj) (h : r ∈ parseLines jl lines) :
    ∃ l ∈ lines, pyStartsBrace (pyStrip l) = true ∧ jl (pyStrip l) = some r := by
  induction lines with
  | nil => cases h
  | cons x xs ih =>
    by_cases hb : pyStrip x = ""
    · rw [parseLines, if_pos hb] at h
      obtain ⟨l, hl, hrest⟩ := ih h
      exact ⟨l, List.mem_cons_of_mem x hl, hrest⟩
    · by_cases hs : pyStartsBrace (pyStrip x) = false
      · rw [parseLines, if_neg hb, if_pos hs] at h
        obtain ⟨l, hl, hrest⟩ := ih h
        exact ⟨l, List.mem_cons_of_mem x hl, hrest⟩
      · simp only [Bool.not_eq_false] at hs
        rcases hj : jl (pyStrip x) with _ | resp
        · rw [parseLines, if_neg hb, if_neg (by simp [hs])] at h
          rw [hj] at h
          obtain ⟨l, hl, hrest⟩ := ih h
          exact ⟨l, List.mem_cons_of_mem x hl, hrest⟩
        · rw [parseLines, if_neg hb, if_neg (by simp [hs])] at h
          rw [hj] at h
          rcases List.mem_cons.mp h with rfl | hmem
          · exact ⟨x, List.mem_cons_self x xs, hs, hj⟩
          · obtain ⟨l, hl, hrest⟩ := ih hmem
            exact ⟨l, List.mem_cons_of_mem x hl, hrest⟩

/-- C4: ResponseDemux extraction.  (a) If the output lines consist of
exactly one line that strips to a `{`-led string parsing to an object
whose id equals the wanted id, surrounded by any number of blank,
non-`{` or unparsable lines, the extraction returns that object,
regardless of how many noise lines there are and where they sit.
(b) If no line parses to an object with the wanted id, the extraction
returns one of the two error outcomes (empty / not-found) — it never
fails. -/
theorem C4_demux_tolerant_extraction (jl : String → Option RpcObj)
    (wantId : Int) :
    (∀ pre post mid resp, (∀ l ∈ pre, NoiseLine jl l) →
      (∀ l ∈ post, NoiseLine jl l) →
      jl (pyStrip mid) = some resp →
      pyStartsBrace (pyStrip mid) = true →
      idMatches resp wantId = true →
      demux jl (pre ++ mid :: post) wantId = .found resp)
    ∧ (∀ lines, (∀ l ∈ lines, pyStartsBrace (pyStrip l) = true →
        ∀ resp, jl (pyStrip l) = some resp →
        idMatches resp wantId = false) →
      demux jl lines wantId = .noValidResponses
        ∨ demux jl lines wantId = .noToolResponse) := by
  constructor
  · intro pre post mid resp hpre hpost hmid hbrace hid
    have hpre0 := parseLines_eq_nil_of_noise jl pre hpre
    have hpost0 := parseLines_eq_nil_of_noise jl post hpost
    have hmid0 : pyStrip mid ≠ "" := by
      intro h0
      rw [h0] at hbrace
      simp [pyStartsBrace] at hbrace
    have hsplit : parseLines jl (pre ++ mid :: post) = [resp] := by
      induction pre with
      | nil =>
        rw [List.nil_append, parseLines, if_neg hmid0,
          if_neg (by simp [hbrace]), hmid, hpost0]
      | cons x xs ih =>
        have hx := hpre x (List.mem_cons_self x xs)
        have hxs : parseLines jl xs = [] :=
          parseLines_eq_nil_of_noise jl xs
            (fun l hl => hpre l (List.mem_cons_of_mem x hl))
        have ih2 := ih (fun l hl => hpre l (List.mem_cons_of_mem x hl)) hxs
        rcases hx with hx | hx | hx
        · simpa [parseLines, hx] using ih2
        · by_cases hb : pyStrip x = ""
          · simpa [parseLines, hb] using ih2
          · simpa [parseLines, hb, hx] using ih2
        · by_cases hb : pyStrip x = ""
          · simpa [parseLines, hb] using ih2
          · by_cases hs : pyStartsBrace (pyStrip x) = false
            · simpa [parseLines, hb, hs] using ih2
            · simp only [Bool.not_eq_false] at hs
              simpa [parseLines, hb, hs, hx] using ih2
    rw [demux]
    rw [hsplit]
    simp [hid]
  · intro lines hno
    rcases hp : parseLines jl lines with _ | ⟨r, rs⟩
    · left
      rw [demux, hp]
      rfl
    · right
      rw [demux, hp]
      have hfind : (r :: rs).find? (fun x => idMatches x wantId) = none := by
        apply List.find?_eq_none.mpr
        intro x hx
        rw [← hp] at hx
        obtain ⟨l, hl, hstart, hparse⟩ := parseLines_sound jl lines x hx
        simp [hno l hl hstart x hparse]
      rw [hfind]
      rfl

theorem C4_demux_tolerant_extraction_witness :
    demux
      (fun s => if s = "\x7bA" then some [("id", JValue.num 1)]
        else if s = "\x7bB" then some [("id", JValue.num 2)] else none)
      (["", "log line"] ++ " \x7bA " :: ["oops", "   "]) 1
      = .found [("id", JValue.num 1)]
    ∧ (demux
        (fun s => if s = "\x7bA" then some [("id", JValue.num 1)]
          else if s = "\x7bB" then some [("id", JValue.num 2)] else none)
        ["\x7bB", "junk"] 1 = .noValidResponses
      ∨ demux
        (fun s => if s = "\x7bA" then some [("id", JValue.num 1)]
          else if s = "\x7bB" then some [("id", JValue.num 2)] else none)
        ["\x7bB", "junk"] 1 = .noToolResponse) := by
  have h := C4_demux_tolerant_extraction
    (fun s => if s = "\x7bA" then some [("id", JValue.num 1)]
      else if s = "\x7bB" then some [("id", JValue.num 2)] else none) 1
  constructor
  · apply h.1
    · intro l hl
      simp only [List.mem_cons, List.not_mem_nil, or_false] at hl
      rcases hl with rfl | rfl
      · exact Or.inl (by decide)
      · exact Or.inr (Or.inl (by decide))
    · intro l hl
      simp only [List.mem_cons, List.not_mem_nil, or_false] at hl
      rcases hl with rfl | rfl
      · exact Or.inr (Or.inl (by decide))
      · exact Or.inl (by decide)
    · rfl
    · decide
    · decide
  · apply h.2
    intro l hl hstart resp hparse
    simp only [List.mem_cons, List.not_mem_nil, or_false] at hl
    rcases hl with rfl | rfl
    · have h2 := Option.some.inj hparse
      subst h2
      decide
    · exact absurd hstart (by decide)

/-! ### Python dynamic operations on decoded JSON values

The facades run `"error" in result`, `result.get(...)`,
`result["..."]`, `len(...)` and f-string formatting on whatever value
`json.loads` produced.  Each helper returns `Except PyErr _`, raising
exactly where CPython raises for that value shape. -/

inductive PyErr where
  | attrError
  | typeError
  | keyError
  | indexError
  | jsonDecodeError (doc : String)
  deriving DecidableEq

def pyErrMsg : PyErr → String
  | .attrError => "AttributeError"
  | .typeError => "TypeError"
  | .keyError => "KeyError"
  | .indexError => "IndexError"
  | .jsonDecodeError _ => "JSONDecodeError"

/-- Python `k in v`: key test on a dict, membership on a list, substring
test on a string, `TypeError` on non-containers. -/
def pyIn (k : String) : JValue → Except PyErr Bool
  | .obj fs => .ok (fs.any (fun p => p.1 = k))
  | .arr xs => .ok (xs.any (fun x => match x with | .str s => s = k | _ => false))
  | .str s => .ok (decide (SubStr k s))
  | _ => .error .typeError

/-- Python `v.get(k, dflt)`: only dicts have `.get` — `AttributeError`
otherwise. -/
def pyGet (v : JValue) (k : String) (dflt : JValue) : Except PyErr JValue :=
  match v with
  | .obj fs => .ok ((jLookup fs k).getD dflt)
  | _ => .error .attrError

/-- Python `v[k]` for a string key. -/
def pySubscript (v : JValue) (k : String) : Except PyErr JValue :=
  match v with
  | .obj fs =>
    match jLookup fs k with
    | some x => .ok x
    | none => .error .keyError
  | _ => .error .typeError

/-- Python `v[n]` for a non-negative integer index. -/
def pyIndex (v : JValue) (n : Nat) : Except PyErr JValue :=
  match v with
  | .arr xs =>
    match xs.get? n with
    | some x => .ok x
    | none => .error .indexError
  | .str s =>
    match s.data.get? n with
    | some c => .ok (.str (String.mk [c]))
    | none => .error .indexError
  | .obj _ => .error .keyError
  | _ => .error .typeError

/-- Python `len(v)`. -/
def pyLen (v : JValue) : Except PyErr Nat :=
  match v with
  | .arr xs => .ok xs.length
  | .str s => .ok s.data.length
  | .obj fs => .ok fs.length
  | _ => .error .typeError

mutual

/-- Python `str(v)` / f-string formatting of a decoded JSON value
(container rendering simplified to element order). -/
def pyFormat : JValue → String
  | .null => "None"
  | .bool b => if b then "True" else "False"
  | .num q => toString q
  | .str s => s
  | .arr xs => "[" ++ pyFormatList xs ++ "]"
  | .obj fs => "\x7b" ++ pyFormatFields fs ++ "\x7d"

def pyFormatList : List JValue → String
  | [] => ""
  | [x] => pyFormat x
  | x :: y :: xs => pyFormat x ++ ", " ++ pyFormatList (y :: xs)

def pyFormatFields : List (String × JValue) → String
  | [] => ""
  | [(k, v)] => k ++ ": " ++ pyFormat v
  | (k, v) :: y :: xs => k ++ ": " ++ pyFormat v ++ ", " ++ pyFormatFields (y :: xs)

end

/-! ### The process bridge (`call_mcp_tool`, graph.py lines 57–247)

The worker's observable behaviour is a record: whether `subprocess.Popen`
raises, whether one of the four write/read steps raises (`failAt`), the
two lines read from the worker's stdout, whether the process exits within
the termination grace period, and its stderr text.  `jl` is `json.loads`
on response lines, `dp` is `json.loads` on the double-encoded
`content[0].text` payload.  The outer `try`/`except` of the source is the
final `match` of `call_mcp_tool`: the body runs in `Except PyErr` and
every raised exception is converted to an `{"error": ...}` envelope. -/

namespace AgentGraph

inductive FailAt where
  | noFail
  | writeInitReq
  | readInitResp
  | writeToolReq
  | readToolResp
  deriving DecidableEq

structure WorkerBehavior where
  spawnFails : Bool := false
  failAt : FailAt := .noFail
  excMsg : String := ""
  initLine : String := ""
  toolLine : String := ""
  termWithinGrace : Bool := true
  stderrText : String := ""

/-- The body of `call_mcp_tool` after the spawn: the inner communication
`try` (whose handler returns the communication-error envelope), the
empty-stdout check, the demux, and the unpacking of
`result.content[0].text`. -/
def call_mcp_tool_body (jl : String → Option RpcObj)
    (dp : String → Option JValue) (b : WorkerBehavior) :
    Except PyErr JValue := do
  if b.failAt ≠ FailAt.noFail then
    return errEnv ("MCP communication error: " ++ b.excMsg)
  let stdout := b.initLine ++ b.toolLine
  if pyStrip stdout = "" then
    return errEnv "MCP server returned empty response"
  match demux jl (pySplitNl (pyStrip stdout)) 1 with
  | .noValidResponses => return errEnv "No valid responses from MCP server"
  | .noToolResponse => return errEnv "No tool response from MCP server"
  | .found toolResp =>
    if toolResp.any (fun p => p.1 = "error") then
      let e := (jLookup toolResp "error").getD .null
      let msg ← pyGet e "message" (.str (pyFormat e))
      return errEnv ("MCP error: " ++ pyFormat msg)
    else if (toolResp.any (fun p => p.1 = "result")) = false then
      return errEnv "No result from MCP server"
    else
      let rd := (jLookup toolResp "result").getD .null
      let hasC ← pyIn "content" rd
      if hasC then
        let content ← pySubscript rd "content"
        let n ← pyLen content
        if 0 < n then
          let first ← pyIndex content 0
          let textV ← pySubscript first "text"
          match textV with
          | .str s =>
            match dp s with
            | some d => return d
            | none => throw (.jsonDecodeError s)
          | _ => throw .typeError
        else
          return errEnv "MCP result missing content"
      else
        return errEnv "MCP result missing content"

/-- `call_mcp_tool`: the outer `try`/`except` converts any exception
raised in the body to an `{"error": ...}` envelope — the function itself
always returns a value. -/
def call_mcp_tool (jl : String → Option RpcObj) (dp : String → Option JValue)
    (b : WorkerBehavior) : JValue :=
  if b.spawnFails then errEnv ("Failed to call MCP: " ++ b.excMsg)
  else
    match call_mcp_tool_body jl dp b with
    | .ok v => v
    | .error (.jsonDecodeError doc) =>
      errEnv ("Invalid JSON from MCP: " ++ doc)
    | .error e => errEnv ("Failed to call MCP: " ++ pyErrMsg e)

/-- The `check_user_entitlement` tool (graph.py lines 251–290).  The
post-`call_mcp_tool` reshaping runs outside any `try`, so it may raise
(`Except.error`). -/
def check_user_entitlement (jl : String → Option RpcObj)
    (dp : String → Option JValue) (username : String) (b : WorkerBehavior) :
    Except PyErr JValue := do
  if username = "" then
    return .obj [("error", .str "Username is required"), ("username", .null)]
  let result := call_mcp_tool jl dp b
  let hasE ← pyIn "error" result
  if hasE then
    let ev ← pySubscript result "error"
    return .obj [("error", ev), ("username", .str username)]
  let d ← pyGet result "data" (.obj [])
  let profile ← pyGet d "profile" (.obj [])
  let roles ← pyGet profile "role" (.arr [])
  let status ← pyGet profile "status" .null
  let email ← pyGet profile "email" .null
  let fn ← pyGet profile "firstName" (.str "")
  let ln ← pyGet profile "lastName" (.str "")
  let eid ← pyGet profile "employeeId" .null
  return .obj [("success", .bool true), ("username", .str username),
    ("profile", profile), ("roles", roles), ("status", status),
    ("email", email), ("name", .str (pyFormat fn ++ " " ++ pyFormat ln)),
    ("employee_id", eid)]

/-- The `query_accounts_by_roles` tool (graph.py lines 294–340). -/
def query_accounts_by_roles (jl : String → Option RpcObj)
    (dp : String → Option JValue) (roles : List String) (b : WorkerBehavior) :
    Except PyErr JValue := do
  let result := call_mcp_tool jl dp b
  let hasE ← pyIn "error" result
  if hasE then
    let ev ← pySubscript result "error"
    return .obj [("error", ev), ("roles", .arr (roles.map .str))]
  let accounts ← pyGet result "accounts" (.arr [])
  let tc ← pyGet result "total_count" (.num 0)
  let qm ← pyGet result "query_metadata" (.obj [])
  return .obj [("success", .bool true), ("accounts", accounts),
    ("total_count", tc), ("roles_used", .arr (roles.map .str)),
    ("query_metadata", qm)]

/-- The `get_account_summary` tool (graph.py lines 344–372). -/
def get_account_summary (jl : String → Option RpcObj)
    (dp : String → Option JValue) (roles : List String) (b : WorkerBehavior) :
    Except PyErr JValue := do
  let result := call_mcp_tool jl dp b
  let hasE ← pyIn "error" result
  if hasE then
    let ev ← pySubscript result "error"
    return .obj [("error", ev), ("roles", .arr (roles.map .str))]
  let s ← pyGet result "summary" (.arr [])
  return .obj [("success", .bool true), ("summary", s),
    ("roles", .arr (roles.map .str))]

/-- Post-processing of the decoded worker payload in `get_account_detail`
(graph.py lines 401–412): a remote error is reshaped into the envelope
with the echoed account number and `access_denied: true`. -/
def get_account_detail_post (account_number : String) (result : JValue) :
    Except PyErr JValue := do
  let hasE ← pyIn "error" result
  if hasE then
    let ev ← pySubscript result "error"
    return .obj [("error", ev), ("account_number", .str account_number),
      ("access_denied", .bool true)]
  let acct ← pyGet result "account" (.obj [])
  let ag ← pyGet result "access_granted" (.bool false)
  return .obj [("success", .bool true), ("account", acct),
    ("access_granted", ag)]

/-- The `get_account_detail` tool (graph.py lines 375–412). -/
def get_account_detail (jl : String → Option RpcObj)
    (dp : String → Option JValue) (account_number : String)
    (b : WorkerBehavior) : Except PyErr JValue :=
  get_account_detail_post account_number (call_mcp_tool jl dp b)

end AgentGraph

/-- `v` is a JSON object. -/
def JValue.isObjB : JValue → Bool
  | .obj _ => true
  | _ => false

/-- The `result.get("data", {})` value of an object payload. -/
def dataField (fs : List (String × JValue)) : JValue :=
  (jLookup fs "data").getD (.obj [])

/-- The `.get("profile", {})` value of the data member. -/
def profileField : JValue → JValue
  | .obj ds => (jLookup ds "profile").getD (.obj [])
  | _ => .null

/-- Shape condition under which `check_user_entitlement`'s reshaping
cannot raise: the payload reports an error, or its `data` member (default
`{}`) and that member's `profile` member (default `{}`) are objects. -/
def entShapeOk (r : JValue) : Bool :=
  match r with
  | .obj fs =>
    (fs.any (fun p => p.1 = "error")) ||
      ((dataField fs).isObjB && (profileField (dataField fs)).isObjB)
  | _ => false

theorem jLookup_some_of_any (fs : List (String × JValue)) (k : String)
    (h : fs.any (fun p => p.1 = k) = true) : ∃ x, jLookup fs k = some x := by
  have h2 : ∃ p ∈ fs, p.1 = k := by simpa using h
  have h3 : (fs.find? (fun p => p.1 = k)).isSome := by
    rw [List.find?_isSome]
    simpa using h2
  rcases ho : fs.find? (fun p => p.1 = k) with _ | p
  · rw [ho] at h3
    cases h3
  · exact ⟨p.2, by rw [jLookup, ho]; rfl⟩

theorem query_facade_ok_of_obj (jl : String → Option RpcObj)
    (dp : String → Option JValue) (roles : List String) (b : AgentGraph.WorkerBehavior)
    (fs : List (String × JValue)) (h : AgentGraph.call_mcp_tool jl dp b = .obj fs) :
    ∃ v, AgentGraph.query_accounts_by_roles jl dp roles b = .ok v := by
  unfold AgentGraph.query_accounts_by_roles
  rw [h]
  by_cases he : fs.any (fun p => p.1 = "error") = true
  · obtain ⟨x, hx⟩ := jLookup_some_of_any fs "error" he
    refine ⟨JValue.obj [("error", x),
      ("roles", JValue.arr (roles.map JValue.str))], ?_⟩
    simp only [pyIn, he, pySubscript, hx, pyGet, bind, Except.bind, pure,
      Except.pure, if_true]
  · have hf : (fs.any fun p => decide (p.1 = "error")) = false := by
      cases hb : fs.any fun p => decide (p.1 = "error")
      · rfl
      · exact absurd hb he
    refine ⟨JValue.obj [("success", JValue.bool true),
      ("accounts", (jLookup fs "accounts").getD (JValue.arr [])),
      ("total_count", (jLookup fs "total_count").getD (JValue.num 0)),
      ("roles_used", JValue.arr (roles.map JValue.str)),
      ("query_metadata", (jLookup fs "query_metadata").getD (JValue.obj []))], ?_⟩
    simp only [pyIn, hf, pySubscript, pyGet, bind, Except.bind, pure,
      Except.pure, Bool.false_eq_true, if_false]

theorem summary_facade_ok_of_obj (jl : String → Option RpcObj)
    (dp : String → Option JValue) (roles : List String)
    (b : AgentGraph.WorkerBehavior) (fs : List (String × JValue))
    (h : AgentGraph.call_mcp_tool jl dp b = .obj fs) :
    ∃ v, AgentGraph.get_account_summary jl dp roles b = .ok v := by
  unfold AgentGraph.get_account_summary
  rw [h]
  by_cases he : (fs.any fun p => decide (p.1 = "error")) = true
  · obtain ⟨x, hx⟩ := jLookup_some_of_any fs "error" he
    refine ⟨JValue.obj [("error", x),
      ("roles", JValue.arr (roles.map JValue.str))], ?_⟩
    simp only [pyIn, he, pySubscript, hx, pyGet, bind, Except.bind, pure,
      Except.pure, if_true]
  · have hf : (fs.any fun p => decide (p.1 = "error")) = false := by
      cases hb : fs.any fun p => decide (p.1 = "error")
      · rfl
      · exact absurd hb he
    refine ⟨JValue.obj [("success", JValue.bool true),
      ("summary", (jLookup fs "summary").getD (JValue.arr [])),
      ("roles", JValue.arr (roles.map JValue.str))], ?_⟩
    simp only [pyIn, hf, pySubscript, pyGet, bind, Except.bind, pure,
      Except.pure, Bool.false_eq_true, if_false]

theorem detail_post_ok_of_obj (account_number : String)
    (fs : List (String × JValue)) :
    ∃ v, AgentGraph.get_account_detail_post account_number (.obj fs)
      = .ok v := by
  unfold AgentGraph.get_account_detail_post
  by_cases he : (fs.any fun p => decide (p.1 = "error")) = true
  · obtain ⟨x, hx⟩ := jLookup_some_of_any fs "error" he
    refine ⟨JValue.obj [("error", x),
      ("account_number", JValue.str account_number),
      ("access_denied", JValue.bool true)], ?_⟩
    simp only [pyIn, he, pySubscript, hx, pyGet, bind, Except.bind, pure,
      Except.pure, if_true]
  · have hf : (fs.any fun p => decide (p.1 = "error")) = false := by
      cases hb : fs.any fun p => decide (p.1 = "error")
      · rfl
      · exact absurd hb he
    refine ⟨JValue.obj [("success", JValue.bool true),
      ("account", (jLookup fs "account").getD (JValue.obj [])),
      ("access_granted", (jLookup fs "access_granted").getD (JValue.bool false))], ?_⟩
    simp only [pyIn, hf, pySubscript, pyGet, bind, Except.bind, pure,
      Except.pure, Bool.false_eq_true, if_false]

theorem check_facade_ok_of_shape (jl : String → Option RpcObj)
    (dp : String → Option JValue) (username : String)
    (b : AgentGraph.WorkerBehavior) (fs : List (String × JValue))
    (h : AgentGraph.call_mcp_tool jl dp b = .obj fs)
    (hshape : entShapeOk (AgentGraph.call_mcp_tool jl dp b) = true) :
    ∃ v, AgentGraph.check_user_entitlement jl dp username b = .ok v := by
  unfold AgentGraph.check_user_entitlement
  by_cases hu : username = ""
  · refine ⟨JValue.obj [("error", JValue.str "Username is required"),
      ("username", JValue.null)], ?_⟩
    simp only [hu, eq_self_iff_true, if_true, pure, Except.pure]
  · rw [h] at hshape ⊢
    rw [if_neg hu]
    by_cases he : (fs.any fun p => decide (p.1 = "error")) = true
    · obtain ⟨x, hx⟩ := jLookup_some_of_any fs "error" he
      refine ⟨JValue.obj [("error", x), ("username", JValue.str username)], ?_⟩
      simp only [pyIn, he, pySubscript, hx, pyGet, bind, Except.bind, pure,
        Except.pure, if_true]
    · have hf : (fs.any fun p => decide (p.1 = "error")) = false := by
        cases hb : fs.any fun p => decide (p.1 = "error")
        · rfl
        · exact absurd hb he
      rw [entShapeOk, hf, Bool.false_or, Bool.and_eq_true] at hshape
      obtain ⟨hdo, hpo⟩ := hshape
      rcases hd : dataField fs with _ | _ | _ | _ | _ | ds <;>
        rw [hd] at hdo hpo
      · simp [JValue.isObjB] at hdo
      · simp [JValue.isObjB] at hdo
      · simp [JValue.isObjB] at hdo
      · simp [JValue.isObjB] at hdo
      · simp [JValue.isObjB] at hdo
      rcases hp : profileField (JValue.obj ds) with _ | _ | _ | _ | _ | ps <;>
        rw [hp] at hpo
      · simp [JValue.isObjB] at hpo
      · simp [JValue.isObjB] at hpo
      · simp [JValue.isObjB] at hpo
      · simp [JValue.isObjB] at hpo
      · simp [JValue.isObjB] at hpo
      have hd2 : (jLookup fs "data").getD (JValue.obj []) = JValue.obj ds := hd
      have hp2 : (jLookup ds "profile").getD (JValue.obj []) = JValue.obj ps := hp
      refine ⟨JValue.obj [("success", JValue.bool true),
        ("username", JValue.str username), ("profile", JValue.obj ps),
        ("roles", (jLookup ps "role").getD (JValue.arr [])),
        ("status", (jLookup ps "status").getD JValue.null),
        ("email", (jLookup ps "email").getD JValue.null),
        ("name", JValue.str
          (pyFormat ((jLookup ps "firstName").getD (JValue.str "")) ++ " " ++
            pyFormat ((jLookup ps "lastName").getD (JValue.str "")))),
        ("employee_id", (jLookup ps "employeeId").getD JValue.null)], ?_⟩
      simp only [pyIn, hf, Bool.false_eq_true, if_false, pyGet, hd2, hp2,
        bind, Except.bind, pure, Except.pure]

/-- C5 counterexample: a worker whose double-encoded payload is the JSON
array `[1]` (a legal, non-object payload).  `call_mcp_tool` itself
returns it without raising, but `check_user_entitlement`'s reshaping
then calls `.get` on a list and raises `AttributeError` to its caller —
the facade does not return an envelope. -/
theorem C5_counterexample :
    AgentGraph.call_mcp_tool
      (fun s => if s = "\x7bI" then some [("id", JValue.num 0)]
        else if s = "\x7bT" then some [("id", JValue.num 1),
          ("result", JValue.obj [("content", JValue.arr [JValue.obj
            [("type", JValue.str "text"), ("text", JValue.str "payload")]])])]
        else none)
      (fun s => if s = "payload" then some (JValue.arr [JValue.num 1]) else none)
      { initLine := "\x7bI\n", toolLine := "\x7bT\n" }
      = JValue.arr [JValue.num 1]
    ∧ AgentGraph.check_user_entitlement
      (fun s => if s = "\x7bI" then some [("id", JValue.num 0)]
        else if s = "\x7bT" then some [("id", JValue.num 1),
          ("result", JValue.obj [("content", JValue.arr [JValue.obj
            [("type", JValue.str "text"), ("text", JValue.str "payload")]])])]
        else none)
      (fun s => if s = "payload" then some (JValue.arr [JValue.num 1]) else none)
      "kannan"
      { initLine := "\x7bI\n", toolLine := "\x7bT\n" }
      = Except.error PyErr.attrError := by
  constructor
  · rfl
  · rfl

/-- C5 (amended): `call_mcp_tool` never raises — every failure becomes an
`{"error": ...}` envelope — and each facade returns an envelope without
raising whenever the decoded payload (or bridge error envelope) is a
JSON object, with `check_user_entitlement` additionally requiring the
object's `data`/`profile` members (where used) to be objects; for other
payload shapes the facades' post-processing can raise to the caller. -/
theorem C5_amended_facades_return_envelopes (jl : String → Option RpcObj)
    (dp : String → Option JValue) (b : AgentGraph.WorkerBehavior)
    (username : String) (roles : List String) (acc : String)
    (hshape : entShapeOk (AgentGraph.call_mcp_tool jl dp b) = true) :
    (∃ v, AgentGraph.check_user_entitlement jl dp username b = .ok v)
    ∧ (∃ v, AgentGraph.query_accounts_by_roles jl dp roles b = .ok v)
    ∧ (∃ v, AgentGraph.get_account_summary jl dp roles b = .ok v)
    ∧ (∃ v, AgentGraph.get_account_detail jl dp acc b = .ok v) := by
  rcases hr : AgentGraph.call_mcp_tool jl dp b with _ | _ | _ | _ | _ | fs
  · rw [hr] at hshape; simp [entShapeOk] at hshape
  · rw [hr] at hshape; simp [entShapeOk] at hshape
  · rw [hr] at hshape; simp [entShapeOk] at hshape
  · rw [hr] at hshape; simp [entShapeOk] at hshape
  · rw [hr] at hshape; simp [entShapeOk] at hshape
  · refine ⟨check_facade_ok_of_shape jl dp username b fs hr hshape,
      query_facade_ok_of_obj jl dp roles b fs hr,
      summary_facade_ok_of_obj jl dp roles b fs hr, ?_⟩
    rw [AgentGraph.get_account_detail, hr]
    exact detail_post_ok_of_obj acc fs

theorem C5_amended_facades_return_envelopes_witness :
    (∃ v, AgentGraph.check_user_entitlement (fun _ => none) (fun _ => none)
      "kannan" { spawnFails := true, excMsg := "boom" } = .ok v)
    ∧ (∃ v, AgentGraph.query_accounts_by_roles (fun _ => none) (fun _ => none)
      ["Admin"] { spawnFails := true, excMsg := "boom" } = .ok v)
    ∧ (∃ v, AgentGraph.get_account_summary (fun _ => none) (fun _ => none)
      ["Admin"] { spawnFails := true, excMsg := "boom" } = .ok v)
    ∧ (∃ v, AgentGraph.get_account_detail (fun _ => none) (fun _ => none)
      "ACC-10001" { spawnFails := true, excMsg := "boom" } = .ok v) :=
  C5_amended_facades_return_envelopes (fun _ => none) (fun _ => none)
    { spawnFails := true, excMsg := "boom" } "kannan" ["Admin"] "ACC-10001"
    (by rfl)

/-- C7: when the detail query returns zero rows — whether the account
does not exist or the roles do not authorize it, the worker sees only
the empty row list — the worker answers with the single merged error
payload, and the `get_account_detail` facade reshapes it into the
envelope carrying the echoed account number and `access_denied: true`. -/
theorem C7_detail_zero_rows_merged_error (acc : String) (roles : List String)
    (db : String → Option (List JValue)) (dbErr : String)
    (hroles : roles ≠ [])
    (hdb : db (build_account_detail_query acc roles) = some []) :
    (DenodoMcp.call_tool db dbErr "get_account_detail"
      { roles := roles, account_number := acc }).1
      = JValue.obj [("error",
          JValue.str "Account not found or access denied based on roles")]
    ∧ AgentGraph.get_account_detail_post acc
        ((DenodoMcp.call_tool db dbErr "get_account_detail"
          { roles := roles, account_number := acc }).1)
      = .ok (JValue.obj [("error",
          JValue.str "Account not found or access denied based on roles"),
        ("account_number", JValue.str acc),
        ("access_denied", JValue.bool true)]) := by
  have h1 : (DenodoMcp.call_tool db dbErr "get_account_detail"
      { roles := roles, account_number := acc }).1
      = JValue.obj [("error",
          JValue.str "Account not found or access denied based on roles")] := by
    unfold DenodoMcp.call_tool
    rw [if_neg (by decide), if_neg (by decide), if_pos rfl]
    dsimp only
    rw [hdb]
  refine ⟨h1, ?_⟩
  rw [h1]
  rfl

theorem C7_detail_zero_rows_merged_error_witness :
    AgentGraph.get_account_detail_post "ACC-999"
      ((DenodoMcp.call_tool (fun _ => some []) "" "get_account_detail"
        { roles := ["Admin"], account_number := "ACC-999" }).1)
      = .ok (JValue.obj [("error",
          JValue.str "Account not found or access denied based on roles"),
        ("account_number", JValue.str "ACC-999"),
        ("access_denied", JValue.bool true)]) :=
  (C7_detail_zero_rows_merged_error "ACC-999" ["Admin"] (fun _ => some []) ""
    (by decide) rfl).2

/-! ### Teardown ordering of one `call_mcp_tool` invocation (graph.py
lines 110–166)

The observable process-lifecycle events of the inner communication
`try`/`except`, in program order.  On the success path the source closes
stdin, sleeps, terminates, waits with a 2-second grace period and kills
on timeout; the `except` handler kills and reaps directly. -/

inductive Ev where
  | spawn
  | writeInitReq
  | readInitResp
  | writeToolReq
  | readToolResp
  | closeStdin
  | sleepPause
  | terminate
  | waitGrace
  | killProc
  | waitReap
  | readStderr
  deriving DecidableEq

/-- The event trace of the communication phase, as a function of which
write/read step raises (`AgentGraph.FailAt`) and of whether the process
exits within the grace period. -/
def comm_trace (f : AgentGraph.FailAt) (graceOk : Bool) : List Ev :=
  Ev.spawn ::
    (match f with
    | .writeInitReq => [Ev.writeInitReq, Ev.killProc, Ev.waitReap]
    | .readInitResp => [Ev.writeInitReq, Ev.readInitResp, Ev.killProc,
        Ev.waitReap]
    | .writeToolReq => [Ev.writeInitReq, Ev.readInitResp, Ev.writeToolReq,
        Ev.killProc, Ev.waitReap]
    | .readToolResp => [Ev.writeInitReq, Ev.readInitResp, Ev.writeToolReq,
        Ev.readToolResp, Ev.killProc, Ev.waitReap]
    | .noFail =>
      [Ev.writeInitReq, Ev.readInitResp, Ev.writeToolReq, Ev.readToolResp,
        Ev.closeStdin, Ev.sleepPause, Ev.terminate]
        ++ (if graceOk then [Ev.waitGrace]
            else [Ev.waitGrace, Ev.killProc, Ev.waitReap])
        ++ [Ev.readStderr])

/-- `a` occurs strictly before some occurrence of `c` in the trace. -/
def beforeIn (a c : Ev) : List Ev → Bool
  | [] => false
  | x :: xs => (x = a && xs.contains c) || beforeIn a c xs

/-- C6 counterexample: on the path where writing the initialize request
raises, the exception handler kills the process without ever closing
stdin — stdin is not closed before the process is asked to terminate. -/
theorem C6_counterexample :
    Ev.closeStdin ∉ comm_trace AgentGraph.FailAt.writeInitReq true
    ∧ Ev.killProc ∈ comm_trace AgentGraph.FailAt.writeInitReq true
    ∧ beforeIn Ev.closeStdin Ev.killProc
        (comm_trace AgentGraph.FailAt.writeInitReq true) = false := by
  decide

/-- C6 (amended): on every communication path termination (graceful
terminate or kill) is attempted before the handle is discarded, and on
the non-exception path stdin is closed before the process is asked to
terminate; on the write/read-exception paths the process is killed
directly without closing stdin first. -/
theorem C6_amended_teardown_order (f : AgentGraph.FailAt) (graceOk : Bool) :
    (Ev.terminate ∈ comm_trace f graceOk ∨ Ev.killProc ∈ comm_trace f graceOk)
    ∧ (f = AgentGraph.FailAt.noFail →
        beforeIn Ev.closeStdin Ev.terminate (comm_trace f graceOk) = true)
    ∧ (f ≠ AgentGraph.FailAt.noFail →
        Ev.closeStdin ∉ comm_trace f graceOk
          ∧ Ev.killProc ∈ comm_trace f graceOk) := by
  cases f <;> cases graceOk <;> decide

theorem C6_amended_teardown_order_witness :
    (Ev.terminate ∈ comm_trace AgentGraph.FailAt.noFail false
      ∨ Ev.killProc ∈ comm_trace AgentGraph.FailAt.noFail false)
    ∧ beforeIn Ev.closeStdin Ev.terminate
        (comm_trace AgentGraph.FailAt.noFail false) = true
    ∧ Ev.closeStdin ∉ comm_trace AgentGraph.FailAt.readToolResp true := by
  have h1 := C6_amended_teardown_order AgentGraph.FailAt.noFail false
  have h2 := C6_amended_teardown_order AgentGraph.FailAt.readToolResp true
  exact ⟨h1.1, h1.2.1 rfl, (h2.2.2 (by decide)).1⟩

/-! ### The mock data worker (src/mcp/denodo_mcp_mock.py)

Accounts are JSON objects (ordered field lists); the module-level
`MOCK_ACCOUNTS` dict is passed as explicit state.  In the Python source
`get_accounts_for_roles` returns aliases of the dicts stored in
`MOCK_ACCOUNTS`, so the `pop` calls of the query handler mutate the
module state; the aliasing is modelled by rewriting, in the state, the
records whose `account_number` was selected (account numbers are unique
in the mock data). -/

namespace MockMcp

abbrev MockAccount := List (String × JValue)

abbrev MockState := List (String × List MockAccount)

def GUEST_ACCOUNTS : List MockAccount :=
  [[("account_number", .str "GUEST-001"),
    ("client_name", .str "Demo User"),
    ("account_type", .str "Demo Account"),
    ("account_status", .str "Active"),
    ("balance", .num 0),
    ("currency", .str "USD"),
    ("open_date", .str "2024-01-01"),
    ("branch_code", .str "DEMO"),
    ("last_updated", .str "2024-11-09"),
    ("access_level", .str "Read-Only"),
    ("entitlement_roles", .arr [.str "Guest"])]]

def ADMIN_ACCOUNTS : List MockAccount :=
  [[("account_number", .str "ACC-10001"),
    ("client_name", .str "John Doe"),
    ("account_type", .str "Checking"),
    ("account_status", .str "Active"),
    ("balance", .num 15000.5),
    ("currency", .str "USD"),
    ("open_date", .str "2020-03-15"),
    ("branch_code", .str "NYC001"),
    ("last_updated", .str "2024-11-09"),
    ("access_level", .str "Full Access"),
    ("entitlement_roles", .arr [.str "Admin"])],
   [("account_number", .str "ACC-10002"),
    ("client_name", .str "Jane Smith"),
    ("account_type", .str "Savings"),
    ("account_status", .str "Active"),
    ("balance", .num 45000.75),
    ("currency", .str "USD"),
    ("open_date", .str "2019-07-22"),
    ("branch_code", .str "NYC001"),
    ("last_updated", .str "2024-11-09"),
    ("access_level", .str "Full Access"),
    ("entitlement_roles", .arr [.str "Admin"])],
   [("account_number", .str "ACC-10003"),
    ("client_name", .str "Bob Johnson"),
    ("account_type", .str "Business"),
    ("account_status", .str "Active"),
    ("balance", .num 125000),
    ("currency", .str "USD"),
    ("open_date", .str "2021-01-10"),
    ("branch_code", .str "NYC002"),
    ("last_updated", .str "2024-11-09"),
    ("access_level", .str "Full Access"),
    ("entitlement_roles", .arr [.str "Admin"])]]

def MANAGER_ACCOUNTS : List MockAccount :=
  [[("account_number", .str "ACC-20001"),
    ("client_name", .str "Alice Williams"),
    ("account_type", .str "Checking"),
    ("account_status", .str "Active"),
    ("balance", .num 8500.25),
    ("currency", .str "USD"),
    ("open_date", .str "2022-05-18"),
    ("branch_code", .str "LA001"),
    ("last_updated", .str "2024-11-09"),
    ("access_level", .str "Manager Access"),
    ("entitlement_roles", .arr [.str "Manager"])],
   [("account_number", .str "ACC-20002"),
    ("client_name", .str "Charlie Brown"),
    ("account_type", .str "Savings"),
    ("account_status", .str "Active"),
    ("balance", .num 22000),
    ("currency", .str "USD"),
    ("open_date", .str "2021-11-03"),
    ("branch_code", .str "LA001"),
    ("last_updated", .str "2024-11-09"),
    ("access_level", .str "Manager Access"),
    ("entitlement_roles", .arr [.str "Manager"])]]

def ANALYST_ACCOUNTS : List MockAccount :=
  [[("account_number", .str "ACC-30001"),
    ("client_name", .str "David Lee"),
    ("account_type", .str "Investment"),
    ("account_status", .str "Active"),
    ("balance", .num 75000),
    ("currency", .str "USD"),
    ("open_date", .str "2020-09-12"),
    ("branch_code", .str "CHI001"),
    ("last_updated", .str "2024-11-09"),
    ("access_level", .str "Read-Only"),
    ("entitlement_roles", .arr [.str "Analyst"])]]

/-- The module-level mock data table, keyed by role. -/
def MOCK_ACCOUNTS : MockState :=
  [("Guest", GUEST_ACCOUNTS), ("Admin", ADMIN_ACCOUNTS),
   ("Manager", MANAGER_ACCOUNTS), ("Analyst", ANALYST_ACCOUNTS)]

/-- `get_accounts_for_roles`: collect the per-role lists in order, and
fall back to the Guest records when nothing matched. -/
def get_accounts_for_roles (st : MockState) (roles : List String) :
    List MockAccount :=
  let accounts := roles.foldl (fun acc role =>
    match st.find? (fun p => p.1 = role) with
    | some p => acc ++ p.2
    | none => acc) []
  if accounts.isEmpty && st.any (fun p => p.1 = "Guest") then
    accounts ++ (((st.find? (fun p => p.1 = "Guest")).map (fun p => p.2)).getD [])
  else
    accounts

/-- The filters dict of the mock worker: `apply_filters` tests *key
presence*, not truthiness. -/
structure MockFilters where
  account_number : Option String := none
  account_status : Option String := none
  min_balance : Option Rat := none
  limit : Option Int := none

def MockFilters.isEmptyDict (f : MockFilters) : Bool :=
  f.account_number.isNone && f.account_status.isNone &&
    f.min_balance.isNone && f.limit.isNone

/-- Python `a[key] == v` for the string-valued filter comparisons. -/
def jeqStr (x : Option JValue) (v : String) : Bool :=
  match x with
  | some (.str s) => s = v
  | _ => false

/-- Python `a["balance"] >= m` (the mock records always carry a numeric
balance where this filter is applied). -/
def jgeNum (x : Option JValue) (m : Rat) : Bool :=
  match x with
  | some (.num q) => m ≤ q
  | _ => false

/-- `apply_filters`: an empty (falsy) dict returns the list unchanged,
otherwise each present key filters in source order and `limit` slices. -/
def apply_filters (accounts : List MockAccount) (filters : MockFilters) :
    List MockAccount :=
  if filters.isEmptyDict then accounts
  else
    let f1 := match filters.account_number with
      | some v => accounts.filter (fun a => jeqStr (jLookup a "account_number") v)
      | none => accounts
    let f2 := match filters.account_status with
      | some v => f1.filter (fun a => jeqStr (jLookup a "account_status") v)
      | none => f1
    let f3 := match filters.min_balance with
      | some m => f2.filter (fun a => jgeNum (jLookup a "balance") m)
      | none => f2
    match filters.limit with
    | some n => f3.take n.toNat
    | none => f3

def balanceKeys : List String := ["balance", "currency", "last_updated"]

def detailKeys : List String :=
  ["client_name", "account_type", "open_date", "branch_code"]

/-- `account.pop(k, None)` for each key in `ks`. -/
def dropKeys (ks : List String) (a : MockAccount) : MockAccount :=
  a.filter (fun p => !(ks.contains p.1))

/-- The in-place pops of the `query_accounts_by_roles` handler on one
record. -/
def dropForFlags (include_balance include_details : Bool) (a : MockAccount) :
    MockAccount :=
  let a1 := if include_balance then a else dropKeys balanceKeys a
  if include_details then a1 else dropKeys detailKeys a1

def accId (a : MockAccount) : String :=
  match jLookup a "account_number" with
  | some (.str s) => s
  | _ => ""

/-- The `query_accounts_by_roles` branch of the mock `call_tool`:
select, filter, pop the unrequested field groups (mutating the aliased
records in the module state), and answer. -/
def query_branch (st : MockState) (roles : List String)
    (filters : MockFilters) (include_balance include_details : Bool) :
    JValue × MockState :=
  let selected := apply_filters (get_accounts_for_roles st roles) filters
  let dropped := selected.map (dropForFlags include_balance include_details)
  let ids := selected.map accId
  let st2 := st.map (fun p => (p.1, p.2.map (fun a =>
    if ids.contains (accId a) then
      dropForFlags include_balance include_details a
    else a)))
  (.obj [("accounts", .arr (dropped.map JValue.obj)),
    ("total_count", .num dropped.length),
    ("roles_used", .arr (roles.map .str)),
    ("data_source", .str "mock")], st2)

/-- The mock worker's `call_tool` dispatcher, with the module state
passed and returned explicitly. -/
def call_tool (st : MockState) (name : String) (roles : List String)
    (filters : MockFilters) (include_balance include_details : Bool)
    (account_number : String) : JValue × MockState :=
  if name = "query_accounts_by_roles" then
    query_branch st roles filters include_balance include_details
  else if name = "get_account_detail" then
    let all_accounts := get_accounts_for_roles st roles
    match all_accounts.find? (fun a => accId a = account_number) with
    | none =>
      (.obj [("error", .str ("Account " ++ account_number
          ++ " not found or not accessible with roles: ["
          ++ pyJoin ", " (roles.map (fun r => "'" ++ r ++ "'")) ++ "]")),
        ("access_granted", .bool false)], st)
    | some a =>
      (.obj [("account", .obj a), ("access_granted", .bool true),
        ("data_source", .str "mock")], st)
  else
    (.obj [("error", .str ("Unknown tool: " ++ name))], st)

/-- First record with the given account number anywhere in the state. -/
def stateAccount (st : MockState) (acc : String) : Option MockAccount :=
  (st.foldr (fun p r => p.2 ++ r) []).find? (fun a => accId a = acc)

end MockMcp

/-- Lookup inside an object payload. -/
def jObjLookup (v : JValue) (k : String) : Option JValue :=
  match v with
  | .obj fs => jLookup fs k
  | _ => none

theorem fold_extend_eq_of_unknown (st : MockMcp.MockState)
    (roles : List String)
    (h : ∀ r ∈ roles, st.find? (fun p => p.1 = r) = none)
    (acc : List MockMcp.MockAccount) :
    roles.foldl (fun acc role =>
      match st.find? (fun p => p.1 = role) with
      | some p => acc ++ p.2
      | none => acc) acc = acc := by
  induction roles generalizing acc with
  | nil => rfl
  | cons x xs ih =>
    rw [List.foldl_cons]
    have hx := h x (List.mem_cons_self x xs)
    have hstep : (match st.find? (fun p => p.1 = x) with
        | some p => acc ++ p.2
        | none => acc) = acc := by
      rw [hx]
    rw [hstep]
    exact ih (fun r hr => h r (List.mem_cons_of_mem x hr)) acc

/-- C9: in the mock worker, a roles list in which no role has any mock
accounts — the empty list and lists of unknown roles included — makes
`get_accounts_for_roles` return the Guest records, so the
`query_accounts_by_roles` handler answers such callers with the Guest
data (one account, no error). -/
theorem C9_unmatched_roles_fall_back_to_guest (roles : List String)
    (h : ∀ r ∈ roles, MockMcp.MOCK_ACCOUNTS.find? (fun p => p.1 = r) = none) :
    MockMcp.get_accounts_for_roles MockMcp.MOCK_ACCOUNTS roles
      = MockMcp.GUEST_ACCOUNTS
    ∧ (MockMcp.call_tool MockMcp.MOCK_ACCOUNTS "query_accounts_by_roles"
        roles {} true true "").1
      = .obj [("accounts", .arr (MockMcp.GUEST_ACCOUNTS.map JValue.obj)),
        ("total_count", .num 1),
        ("roles_used", .arr (roles.map .str)),
        ("data_source", .str "mock")] := by
  have hga : MockMcp.get_accounts_for_roles MockMcp.MOCK_ACCOUNTS roles
      = MockMcp.GUEST_ACCOUNTS := by
    unfold MockMcp.get_accounts_for_roles
    rw [fold_extend_eq_of_unknown MockMcp.MOCK_ACCOUNTS roles h []]
    rfl
  refine ⟨hga, ?_⟩
  unfold MockMcp.call_tool MockMcp.query_branch
  rw [if_pos rfl]
  dsimp only
  rw [hga]
  rfl

theorem C9_unmatched_roles_fall_back_to_guest_witness :
    MockMcp.get_accounts_for_roles MockMcp.MOCK_ACCOUNTS []
      = MockMcp.GUEST_ACCOUNTS
    ∧ MockMcp.get_accounts_for_roles MockMcp.MOCK_ACCOUNTS ["Auditor"]
      = MockMcp.GUEST_ACCOUNTS
    ∧ (MockMcp.call_tool MockMcp.MOCK_ACCOUNTS "query_accounts_by_roles"
        ["Auditor"] {} true true "").1
      = .obj [("accounts", .arr (MockMcp.GUEST_ACCOUNTS.map JValue.obj)),
        ("total_count", .num 1),
        ("roles_used", .arr [.str "Auditor"]),
        ("data_source", .str "mock")] := by
  have h1 := C9_unmatched_roles_fall_back_to_guest [] (by simp)
  have h2 := C9_unmatched_roles_fall_back_to_guest ["Auditor"] (by
    intro r hr
    simp only [List.mem_singleton] at hr
    subst hr
    rfl)
  exact ⟨h1.1, h2.1, h2.2⟩

/-- C10: handling `query_accounts_by_roles` with `include_balance` false
pops the balance field group from the shared `MOCK_ACCOUNTS` records in
place: afterwards the stored Admin record `ACC-10001` has no `balance`
field, and a later `get_account_detail` call served from the same state
returns that account without the balance fields even though its own
include flags play no part in the detail path — the worker's stored data
is not left unchanged by the read-only query. -/
theorem C10_query_pops_shared_state :
    ((MockMcp.stateAccount MockMcp.MOCK_ACCOUNTS "ACC-10001").map
      (fun a => jLookup a "balance")) = some (some (.num 15000.5))
    ∧ ((MockMcp.stateAccount
        (MockMcp.call_tool MockMcp.MOCK_ACCOUNTS "query_accounts_by_roles"
          ["Admin"] {} false true "").2 "ACC-10001").map
      (fun a => jLookup a "balance")) = some none
    ∧ jObjLookup (MockMcp.call_tool
        (MockMcp.call_tool MockMcp.MOCK_ACCOUNTS "query_accounts_by_roles"
          ["Admin"] {} false true "").2
        "get_account_detail" ["Admin"] {} true true "ACC-10001").1
        "access_granted" = some (.bool true)
    ∧ ((jObjLookup (MockMcp.call_tool
        (MockMcp.call_tool MockMcp.MOCK_ACCOUNTS "query_accounts_by_roles"
          ["Admin"] {} false true "").2
        "get_account_detail" ["Admin"] {} true true "ACC-10001").1
        "account").map (fun a => jObjLookup a "balance")) = some none
    ∧ ((jObjLookup (MockMcp.call_tool
        (MockMcp.call_tool MockMcp.MOCK_ACCOUNTS "query_accounts_by_roles"
          ["Admin"] {} false true "").2
        "get_account_detail" ["Admin"] {} true true "ACC-10001").1
        "account").map (fun a => jObjLookup a "client_name"))
      = some (some (.str "John Doe")) := by
  refine ⟨rfl, ?_, ?_, ?_, ?_⟩ <;> rfl
